import Mathlib

/-!
Verification of the OrbitIQ backend core: the TLE derivation engine
(`populateDerived` / `calculateDerived`), the epoch-year resolver, the
orbit-regime classifier, the idempotent history store, the Space-Track
session manager with its rate-limit cooldown, and the sync job's
retry and per-object failure-isolation logic.

JavaScript strings are modelled as `List Char` (with `Option String` for
nullable parameters); JavaScript numbers are modelled exactly: parsed
literals as `ℚ`, derived quantities as `ℝ`, and `NaN` as `none` in
`Option ℝ`.  IEEE-754 rounding error and overflow to `Infinity` are
outside the model (values are exact), and `parseFloat`'s literal
`Infinity` keyword is not modelled, since no fixed-width TLE field
contains it.
-/

/-- The whitespace characters relevant to JS `parseFloat` / `trim` on
TLE text (space, tab, LF, CR). -/
def isJsWs (c : Char) : Bool :=
  c = ' ' || c = '\t' || c = '\n' || c = '\r'

/-- Decimal digit test, as in the ECMAScript numeric-literal grammar. -/
def isDigitCh (c : Char) : Bool :=
  '0' ≤ c && c ≤ '9'

/-- Numeric value of one decimal digit character. -/
def digitVal (c : Char) : ℕ :=
  c.toNat - 48

/-- Value of a run of decimal digit characters. -/
def digitsVal (ds : List Char) : ℕ :=
  ds.foldl (fun n c => 10 * n + digitVal c) 0

theorem digitsVal_nil : digitsVal [] = 0 := rfl

/-- Split off the leading run of decimal digits. -/
def takeDigits (cs : List Char) : List Char × List Char :=
  (cs.takeWhile isDigitCh, cs.dropWhile isDigitCh)

/-- An optionally signed run of decimal digits; `0` when no digit
follows (JS treats a malformed exponent part as absent). -/
def parseSignedDigits (cs : List Char) : ℤ :=
  match cs with
  | [] => 0
  | c :: t =>
    let sr : ℤ × List Char :=
      if c = '-' then (-1, t) else if c = '+' then (1, t) else (1, cs)
    if (takeDigits sr.2).1.isEmpty then 0 else sr.1 * (digitsVal (takeDigits sr.2).1 : ℤ)

/-- The exponent part of a JS decimal literal (`e`/`E`, optional sign,
digits); contributes `0` when absent or malformed. -/
def parseExpPart (cs : List Char) : ℤ :=
  match cs with
  | [] => 0
  | c :: t => if c = 'e' || c = 'E' then parseSignedDigits t else 0

/-- Model of JS `parseFloat`: skip leading whitespace, optional sign,
longest prefix matching `digits [. digits] [exponent]`; `none` models
the `NaN` result when no digit is found. -/
def parseFloatChars (cs : List Char) : Option ℚ :=
  let cs1 := cs.dropWhile isJsWs
  let sc : ℚ × List Char :=
    match cs1 with
    | [] => (1, [])
    | c :: t => if c = '-' then (-1, t) else if c = '+' then (1, t) else (1, cs1)
  let ip := (takeDigits sc.2).1
  let cs3 := (takeDigits sc.2).2
  let fr : List Char × List Char :=
    match cs3 with
    | [] => ([], [])
    | c :: t => if c = '.' then takeDigits t else ([], cs3)
  if ip.isEmpty && fr.1.isEmpty then none
  else some (sc.1 * ((digitsVal ip : ℚ) + (digitsVal fr.1 : ℚ) / (10 : ℚ) ^ fr.1.length)
             * (10 : ℚ) ^ parseExpPart fr.2)

/-- Model of JS `parseInt` (no radix argument) on decimal text: skip
whitespace, optional sign, leading digits; `none` models `NaN`.  (The
hexadecimal `0x` prefix is not modelled; the epoch columns hold decimal
digits.) -/
def parseIntChars (cs : List Char) : Option ℤ :=
  let cs1 := cs.dropWhile isJsWs
  let sc : ℤ × List Char :=
    match cs1 with
    | [] => (1, [])
    | c :: t => if c = '-' then (-1, t) else if c = '+' then (1, t) else (1, cs1)
  if (takeDigits sc.2).1.isEmpty then none
  else some (sc.1 * (digitsVal (takeDigits sc.2).1 : ℤ))

/-- JS `String.prototype.slice(a, b)` on nonnegative indices. -/
def jsSlice (cs : List Char) (a b : ℕ) : List Char :=
  (cs.drop a).take (b - a)

/-- JS `String.prototype.trim()`. -/
def jsTrim (cs : List Char) : List Char :=
  ((cs.dropWhile isJsWs).reverse.dropWhile isJsWs).reverse

/-- JS `String.prototype.replace(pat, repl)` with a one-character
pattern: replaces only the first occurrence. -/
def jsReplaceFirst (cs : List Char) (pat : Char) (repl : List Char) : List Char :=
  match cs with
  | [] => []
  | c :: t => if c = pat then repl ++ t else c :: jsReplaceFirst t pat repl

/-- JS falsiness of a nullable string (`!s`): `null`/`undefined` or `""`. -/
def strFalsy : Option String → Bool
  | none => true
  | some s => s.isEmpty

/-- Characters of a nullable JS string. -/
def optChars : Option String → List Char
  | none => []
  | some s => s.toList

/-- `EARTH_RADIUS_KM` constant shared by every derivation copy. -/
noncomputable def EARTH_RADIUS_KM : ℝ := 6378.137

/-- `GM_KM3_S2` constant shared by every derivation copy. -/
noncomputable def GM_KM3_S2 : ℝ := 398600.4418

/-- JS `Math.cbrt` on exact reals (odd cube root). -/
noncomputable def jsCbrt (x : ℝ) : ℝ :=
  if x < 0 then -((-x) ^ ((1 : ℝ) / 3)) else x ^ ((1 : ℝ) / 3)

/-- `parseFloat(x.toFixed(d))` on a non-`NaN` value: round half-up to
`d` decimal places (the ECMAScript `toFixed` tie-break picks the larger
candidate). -/
noncomputable def roundTo (d : ℕ) (x : ℝ) : ℝ :=
  (⌊x * 10 ^ d + 1 / 2⌋ : ℤ) / 10 ^ d

/-- `x` is representable with `d` decimal places. -/
def hasDecimals (d : ℕ) (x : ℝ) : Prop :=
  ∃ k : ℤ, x = (k : ℝ) / 10 ^ d

/-- Every value present in the optional field is representable with `d`
decimal places (`none` models `NaN`, which carries no decimals). -/
def optPrec (d : ℕ) (o : Option ℝ) : Prop :=
  ∀ x ∈ o, hasDecimals d x

theorem hasDecimals_roundTo (d : ℕ) (x : ℝ) : hasDecimals d (roundTo d x) :=
  ⟨⌊x * 10 ^ d + 1 / 2⌋, rfl⟩

/-- The `DerivedOrbitalParameters` record produced by the derivation
engine; every field is a JS number (`none` = `NaN`). -/
structure Derived where
  inclination : Option ℝ
  eccentricity : Option ℝ
  mean_motion : Option ℝ
  semi_major_axis_km : Option ℝ
  perigee_km : Option ℝ
  apogee_km : Option ℝ
  orbital_period_minutes : Option ℝ
  altitude_km : Option ℝ
  velocity_kms : Option ℝ
  raan : Option ℝ
  arg_perigee : Option ℝ
  mean_anomaly : Option ℝ
  bstar : Option ℝ
  mean_motion_dot : Option ℝ
  mean_motion_ddot : Option ℝ

/-- `populateDerived(line1, line2)` from the shared production parser
`backend/scripts/populateDerived.js` (src/unnamed/part_000): rejects
missing lines and `!meanMotion || meanMotion <= 0`, then derives all
orbital parameters and rounds the listed fields with `toFixed`. -/
noncomputable def populateDerived (line1 line2 : Option String) : Option Derived :=
  if strFalsy line1 || strFalsy line2 then none else
  match parseFloatChars (jsSlice (optChars line2) 52 63) with
  | none => none
  | some meanMotion =>
  if meanMotion ≤ 0 then none else
  let l1 := optChars line1
  let l2 := optChars line2
  let periodSec : ℝ := 86400 / (meanMotion : ℝ)
  let periodMin : ℝ := periodSec / 60
  let semiMajorAxis : ℝ := jsCbrt (GM_KM3_S2 * (periodSec / (2 * Real.pi)) ^ 2)
  let inclination := parseFloatChars (jsSlice l2 8 16)
  let eccentricity := parseFloatChars ('0' :: '.' :: jsSlice l2 26 33)
  let raan := parseFloatChars (jsSlice l2 17 25)
  let argPerigee := parseFloatChars (jsSlice l2 34 42)
  let meanAnomaly := parseFloatChars (jsSlice l2 43 51)
  let altitude : ℝ := semiMajorAxis - EARTH_RADIUS_KM
  let velocity : ℝ := 2 * Real.pi * semiMajorAxis / periodSec
  let bstarStr := jsTrim (jsSlice l1 53 63)
  let bstar : Option ℝ :=
    if bstarStr.isEmpty then some 0
    else (parseFloatChars (jsReplaceFirst (jsReplaceFirst bstarStr '+' ['e', '+'])
      '-' ['e', '-'])).map fun q : ℚ => (q : ℝ)
  let mmDotStr := jsTrim (jsSlice l1 33 43)
  let mmDot : Option ℝ :=
    if mmDotStr.isEmpty then some 0 else (parseFloatChars mmDotStr).map fun q : ℚ => (q : ℝ)
  let mmDdotStr := jsTrim (jsSlice l1 44 52)
  let mmDdot : Option ℝ :=
    if mmDdotStr.isEmpty then some 0 else (parseFloatChars mmDdotStr).map fun q : ℚ => (q : ℝ)
  some {
    inclination := inclination.map fun q : ℚ => roundTo 4 (q : ℝ)
    eccentricity := eccentricity.map fun q : ℚ => roundTo 8 (q : ℝ)
    mean_motion := some (roundTo 8 (meanMotion : ℝ))
    semi_major_axis_km := some (roundTo 4 semiMajorAxis)
    perigee_km := eccentricity.map fun q : ℚ => roundTo 2 (semiMajorAxis * (1 - (q : ℝ)) - EARTH_RADIUS_KM)
    apogee_km := eccentricity.map fun q : ℚ => roundTo 2 (semiMajorAxis * (1 + (q : ℝ)) - EARTH_RADIUS_KM)
    orbital_period_minutes := some (roundTo 4 periodMin)
    altitude_km := some (roundTo 2 altitude)
    velocity_kms := some (roundTo 4 velocity)
    raan := raan.map fun q : ℚ => roundTo 4 (q : ℝ)
    arg_perigee := argPerigee.map fun q : ℚ => roundTo 4 (q : ℝ)
    mean_anomaly := meanAnomaly.map fun q : ℚ => roundTo 4 (q : ℝ)
    bstar := bstar
    mean_motion_dot := mmDot
    mean_motion_ddot := mmDdot }

/-- `calculateDerived(line1, line2)` from the one-time backfill script
`backend/scripts/populateDerived.js` (src/scripts/populatedDerived.js):
identical to `populateDerived` except that its guard is only
`!meanMotion` — it does not reject negative mean motion. -/
noncomputable def calculateDerived (line1 line2 : Option String) : Option Derived :=
  if strFalsy line1 || strFalsy line2 then none else
  match parseFloatChars (jsSlice (optChars line2) 52 63) with
  | none => none
  | some meanMotion =>
  if meanMotion = 0 then none else
  let l1 := optChars line1
  let l2 := optChars line2
  let periodSec : ℝ := 86400 / (meanMotion : ℝ)
  let periodMin : ℝ := periodSec / 60
  let semiMajorAxis : ℝ := jsCbrt (GM_KM3_S2 * (periodSec / (2 * Real.pi)) ^ 2)
  let inclination := parseFloatChars (jsSlice l2 8 16)
  let eccentricity := parseFloatChars ('0' :: '.' :: jsSlice l2 26 33)
  let raan := parseFloatChars (jsSlice l2 17 25)
  let argPerigee := parseFloatChars (jsSlice l2 34 42)
  let meanAnomaly := parseFloatChars (jsSlice l2 43 51)
  let altitude : ℝ := semiMajorAxis - EARTH_RADIUS_KM
  let velocity : ℝ := 2 * Real.pi * semiMajorAxis / periodSec
  let bstarStr := jsTrim (jsSlice l1 53 63)
  let bstar : Option ℝ :=
    if bstarStr.isEmpty then some 0
    else (parseFloatChars (jsReplaceFirst (jsReplaceFirst bstarStr '+' ['e', '+'])
      '-' ['e', '-'])).map fun q : ℚ => (q : ℝ)
  let mmDotStr := jsTrim (jsSlice l1 33 43)
  let mmDot : Option ℝ :=
    if mmDotStr.isEmpty then some 0 else (parseFloatChars mmDotStr).map fun q : ℚ => (q : ℝ)
  let mmDdotStr := jsTrim (jsSlice l1 44 52)
  let mmDdot : Option ℝ :=
    if mmDdotStr.isEmpty then some 0 else (parseFloatChars mmDdotStr).map fun q : ℚ => (q : ℝ)
  some {
    inclination := inclination.map fun q : ℚ => roundTo 4 (q : ℝ)
    eccentricity := eccentricity.map fun q : ℚ => roundTo 8 (q : ℝ)
    mean_motion := some (roundTo 8 (meanMotion : ℝ))
    semi_major_axis_km := some (roundTo 4 semiMajorAxis)
    perigee_km := eccentricity.map fun q : ℚ => roundTo 2 (semiMajorAxis * (1 - (q : ℝ)) - EARTH_RADIUS_KM)
    apogee_km := eccentricity.map fun q : ℚ => roundTo 2 (semiMajorAxis * (1 + (q : ℝ)) - EARTH_RADIUS_KM)
    orbital_period_minutes := some (roundTo 4 periodMin)
    altitude_km := some (roundTo 2 altitude)
    velocity_kms := some (roundTo 4 velocity)
    raan := raan.map fun q : ℚ => roundTo 4 (q : ℝ)
    arg_perigee := argPerigee.map fun q : ℚ => roundTo 4 (q : ℝ)
    mean_anomaly := meanAnomaly.map fun q : ℚ => roundTo 4 (q : ℝ)
    bstar := bstar
    mean_motion_dot := mmDot
    mean_motion_ddot := mmDdot }

/-- The orbit-regime classification branch of `calculateDerivedParams`
(src/index.js, lines 184-188), applied to the computed altitude. -/
noncomputable def orbitTypeOf (altitude : ℝ) : String :=
  if altitude < 2000 then "LEO"
  else if altitude < 35786 then "MEO"
  else if |altitude - 35786| ≤ 2000 then "GEO"
  else "HEO"

/-- The epoch century pivot `year < 57 ? 2000 + year : 1900 + year`
(src/jobs/fetchDailyTLEs.js lines 90-92, src/index.js lines 333-335). -/
def resolveFullYear (year : ℤ) : ℤ :=
  if year < 57 then 2000 + year else 1900 + year

/-- `parseInt(line1.slice(18, 20))` followed by the century pivot;
`none` models the `NaN` year produced by a non-numeric token. -/
def epochFullYear (line1 : String) : Option ℤ :=
  (parseIntChars (jsSlice line1.toList 18 20)).map resolveFullYear

/-- A row of the `tle_history` table (raw lines, name, epoch in ms). -/
structure HistoryRow where
  norad_id : ℕ
  name : String
  tle_line1 : String
  tle_line2 : String
  epoch : ℤ
  user_id : String
deriving DecidableEq, Repr

/-- The composite uniqueness key `(norad_id, epoch, user_id)` of the
`tle_history` / `tle_derived` tables. -/
def sameKey (a b : HistoryRow) : Bool :=
  a.norad_id == b.norad_id && a.epoch == b.epoch && a.user_id == b.user_id

/-- `INSERT INTO tle_history ... ON CONFLICT (norad_id, epoch, user_id)
DO NOTHING` (src/jobs/fetchDailyTLEs.js lines 105-109): appends the row
unless a row with the same composite key is already stored, in which
case the store is left untouched and no error is raised. -/
def insertHistory (store : List HistoryRow) (r : HistoryRow) : List HistoryRow :=
  if store.any (fun q => sameKey q r) then store else store ++ [r]

/-- A row of the `tle_derived` table: same composite key, derived payload. -/
structure DerivedRow where
  norad_id : ℕ
  epoch : ℤ
  user_id : String
  payload : Derived

/-- Key equality for `tle_derived` rows. -/
def sameKeyD (a b : DerivedRow) : Bool :=
  a.norad_id == b.norad_id && a.epoch == b.epoch && a.user_id == b.user_id

/-- `INSERT INTO tle_derived ... ON CONFLICT (norad_id, epoch, user_id)
DO NOTHING`. -/
def insertDerived (store : List DerivedRow) (r : DerivedRow) : List DerivedRow :=
  if store.any (fun q => sameKeyD q r) then store else store ++ [r]

/-- Outcome of the per-object upstream fetch in the per-object sync loop
(src/jobs/fetchDailyTLEs.js lines 64-141): a thrown transport error, an
empty body, a body with fewer than three lines, or a parsed 3le block. -/
inductive FetchOutcome
  | netError
  | noData
  | badFormat
  | got (name line1 line2 : String)

/-- One tracked object of a sync pass together with the environment
behaviour for it: the fetch outcome, the resolved epoch, and whether
each of the two inserts throws. -/
structure ObjTask where
  norad_id : ℕ
  user_id : String
  fetch : FetchOutcome
  epoch : ℤ
  histInsertFails : Bool
  derInsertFails : Bool

/-- The body of the per-object loop of `fetchAndStoreTLEs`
(src/jobs/fetchDailyTLEs.js lines 64-141).  The whole body runs inside
`try { ... } catch { log }`, so every failure leaves the loop running;
a thrown insert leaves exactly the writes already performed. -/
noncomputable def processOneA (st : List HistoryRow × List DerivedRow) (o : ObjTask) :
    List HistoryRow × List DerivedRow :=
  match o.fetch with
  | .netError => st
  | .noData => st
  | .badFormat => st
  | .got name l1 l2 =>
    match populateDerived (some l1) (some l2) with
    | none => st
    | some d =>
      if o.histInsertFails then st
      else
        let st1 := (insertHistory st.1 ⟨o.norad_id, name, l1, l2, o.epoch, o.user_id⟩, st.2)
        if o.derInsertFails then st1
        else (st1.1, insertDerived st1.2 ⟨o.norad_id, o.epoch, o.user_id, d⟩)

/-- The per-object sync pass: the loop always reaches every object. -/
noncomputable def syncPassA (st : List HistoryRow × List DerivedRow) :
    List ObjTask → List HistoryRow × List DerivedRow
  | [] => st
  | o :: objs => syncPassA (processOneA st o) objs

/-- One TLE block of the batched sync loop (src/jobs/fetchDailyTLEs.js
lines 258-333): `valid` is the line1/line2 shape check, `known` is the
`userMap` lookup, and the two flags say whether the corresponding
`pool.query` throws. -/
structure BlockB where
  valid : Bool
  known : Bool
  norad : ℕ
  user_id : String
  name : String
  line1 : String
  line2 : String
  epoch : ℤ
  histInsertFails : Bool
  derInsertFails : Bool

/-- One iteration of the batched `while` loop; the returned flag is true
when a `pool.query` threw (the exception propagates to the outer
`catch`, aborting the pass).  Shape or derivation failures merely skip
the block. -/
noncomputable def stepB (st : List HistoryRow × List DerivedRow) (b : BlockB) :
    (List HistoryRow × List DerivedRow) × Bool :=
  if b.valid = false then (st, false)
  else if b.known = false then (st, false)
  else
    match calculateDerived (some b.line1) (some b.line2) with
    | none => (st, false)
    | some d =>
      if b.histInsertFails then (st, true)
      else
        let st1 := (insertHistory st.1 ⟨b.norad, b.name, b.line1, b.line2, b.epoch, b.user_id⟩, st.2)
        if b.derInsertFails then (st1, true)
        else ((st1.1, insertDerived st1.2 ⟨b.norad, b.epoch, b.user_id, d⟩), false)

/-- The batched sync loop: stops at the first thrown insert (flag true),
leaving every later block unprocessed. -/
noncomputable def syncPassB (st : List HistoryRow × List DerivedRow) :
    List BlockB → (List HistoryRow × List DerivedRow) × Bool
  | [] => (st, false)
  | b :: rest =>
    match stepB st b with
    | (st1, true) => (st1, true)
    | (st1, false) => syncPassB st1 rest

/-- The module-level Space-Track session state of src/index.js
(lines 111-113): `cookies`, `lastLogin`, `rateLimitUntil` (ms). -/
structure SessState where
  cookies : Bool
  lastLogin : ℤ
  rateLimitUntil : ℤ
deriving DecidableEq, Repr

/-- A request actually issued to the upstream service. -/
inductive UpstreamReq
  | login
  | data
deriving DecidableEq, Repr

/-- `loginToSpaceTrack` (src/index.js lines 115-133): on success the
cookie is stored, `lastLogin = Date.now()` and `rateLimitUntil = 0`; on
failure the cookie is cleared and the other fields are untouched. -/
def loginToSpaceTrack (st : SessState) (now : ℤ) (loginOk : Bool) : SessState :=
  if loginOk then ⟨true, now, 0⟩ else ⟨false, st.lastLogin, st.rateLimitUntil⟩

/-- `ensureSession` (src/index.js lines 135-140): logs in when there is
no cookie or the session is older than the 20-minute TTL, and returns
`!!cookies`.  The request list records the upstream requests issued. -/
def ensureSession (st : SessState) (now : ℤ) (loginOk : Bool) :
    SessState × List UpstreamReq × Bool :=
  if st.cookies = false || now - st.lastLogin > 20 * 60 * 1000 then
    let st1 := loginToSpaceTrack st now loginOk
    (st1, [UpstreamReq.login], st1.cookies)
  else (st, [], true)

/-- Network outcome of the authenticated data request. -/
inductive FetchNet
  | ok
  | err429
  | errOther
deriving DecidableEq, Repr

/-- `fetchFullSatelliteData` (src/index.js lines 143-170): ensure a
session, then short-circuit if `rateLimitUntil > Date.now()`, then issue
the data request; a 429 response records a cooldown 60 s ahead.  The
result records the final state, the requests issued, and whether a
record was returned. -/
def fetchFullSatelliteData (st : SessState) (now : ℤ) (loginOk : Bool) (net : FetchNet) :
    SessState × List UpstreamReq × Bool :=
  match ensureSession st now loginOk with
  | (st1, reqs, false) => (st1, reqs, false)
  | (st1, reqs, true) =>
    if st1.rateLimitUntil > now then (st1, reqs, false)
    else
      match net with
      | .ok => (st1, reqs ++ [UpstreamReq.data], true)
      | .err429 => ({ st1 with rateLimitUntil := now + 60 * 1000 }, reqs ++ [UpstreamReq.data], false)
      | .errOther => (st1, reqs ++ [UpstreamReq.data], false)

/-- Outcome of one whole pass attempt of the batched job: the scenario
oracle says whether attempt `n` succeeds or throws a transport error
(login itself succeeding). -/
inductive PassOutcome
  | success
  | transportError
deriving DecidableEq, Repr

/-- Counts observable effects of one invocation of the batched job. -/
structure JobTrace where
  loginAttempts : ℕ
  passAttempts : ℕ
  succeeded : Bool
deriving DecidableEq, Repr

/-- The retry skeleton of `fetchAndStoreTLEs(retryCount = 0)`
(src/jobs/fetchDailyTLEs.js lines 231-348): a missing cookie triggers a
login at the start of each attempt; on a thrown pass the function
clears the cookie and recurses with `retryCount + 1` while
`retryCount < 3`, otherwise it gives up. -/
def fetchAndStoreTLEs (outcome : ℕ → PassOutcome) (retryCount : ℕ) (cookies : Bool) : JobTrace :=
  let logins : ℕ := if cookies then 0 else 1
  match outcome retryCount with
  | .success => ⟨logins, 1, true⟩
  | .transportError =>
    if h : retryCount < 3 then
      let t := fetchAndStoreTLEs outcome (retryCount + 1) false
      ⟨logins + t.loginAttempts, 1 + t.passAttempts, t.succeeded⟩
    else ⟨logins, 1, false⟩
termination_by 3 - retryCount
decreasing_by omega

/-- A well-formed ISS-style element set, line 1. -/
def issL1 : String := "1 25544U 98067A   24001.50000000  .00002182  00000-0  40768-4 0  9990"

/-- A well-formed ISS-style element set, line 2 (mean motion 15.5). -/
def issL2 : String := "2 25544  51.6400 208.9163 0006703  69.9862  25.2906 15.50000000123456"

/-- `issL2` with non-numeric text in the inclination columns 9-16. -/
def badInclL2 : String := "2 25544 ABCDEFGH 208.9163 0006703  69.9862  25.2906 15.50000000123456"

/-- `issL2` with zero mean motion in columns 53-63. -/
def zeroMmL2 : String := "2 25544  51.6400 208.9163 0006703  69.9862  25.2906 00.00000000123456"

/-- `issL2` with negative mean motion in columns 53-63. -/
def negMmL2 : String := "2 25544  51.6400 208.9163 0006703  69.9862  25.2906 -15.5000000123456"

/-- TLE line 1 with epoch year token `56`. -/
def epochL56 : String := "1 00001U 57001A   56001.00000000  .00000000  00000-0  00000-0 0  9990"

/-- TLE line 1 with epoch year token `57`. -/
def epochL57 : String := "1 00001U 57001A   57001.00000000  .00000000  00000-0  00000-0 0  9990"

/-- TLE line 1 with epoch year token `99`. -/
def epochL99 : String := "1 00001U 57001A   99001.00000000  .00000000  00000-0  00000-0 0  9990"

/-- TLE line 1 with epoch year token `00`. -/
def epochL00 : String := "1 00001U 57001A   00001.00000000  .00000000  00000-0  00000-0 0  9990"

/-- Claim C9: the epoch resolver maps two-digit year tokens `< 57` to
`2000 + year` and all others to `1900 + year`; in particular `56 ↦ 2056`,
`57 ↦ 1957`, `99 ↦ 1999`, `00 ↦ 2000`, both on the pivot function and on
whole line-1 strings through columns 19-20. -/
theorem epoch_century_pivot :
    (∀ y : ℤ, resolveFullYear y = if y < 57 then 2000 + y else 1900 + y) ∧
    resolveFullYear 56 = 2056 ∧ resolveFullYear 57 = 1957 ∧
    resolveFullYear 99 = 1999 ∧ resolveFullYear 0 = 2000 ∧
    epochFullYear epochL56 = some 2056 ∧ epochFullYear epochL57 = some 1957 ∧
    epochFullYear epochL99 = some 1999 ∧ epochFullYear epochL00 = some 2000 :=
  ⟨fun _ => rfl, by decide, by decide, by decide, by decide,
    by decide, by decide, by decide, by decide⟩

/-- Claim C4 (amended): the classifier returns LEO below 2000 km, MEO on
`[2000, 35786)`, GEO on `[35786, 37786]`, and HEO above; the lower GEO
half-window `[33786, 35786)` is shadowed by the MEO branch. -/
theorem orbitTypeOf_cases (a : ℝ) :
    (a < 2000 → orbitTypeOf a = "LEO") ∧
    (2000 ≤ a → a < 35786 → orbitTypeOf a = "MEO") ∧
    (35786 ≤ a → a ≤ 37786 → orbitTypeOf a = "GEO") ∧
    (37786 < a → orbitTypeOf a = "HEO") := by
  unfold orbitTypeOf
  refine ⟨fun h => ?_, fun h1 h2 => ?_, fun h1 h2 => ?_, fun h => ?_⟩
  · rw [if_pos h]
  · rw [if_neg (by linarith), if_pos h2]
  · rw [if_neg (by linarith), if_neg (by linarith),
      if_pos (by rw [abs_le]; constructor <;> linarith)]
  · rw [if_neg (by linarith), if_neg (by linarith), if_neg]
    rw [abs_le]
    push_neg
    intro hcon
    linarith

/-- Witness for C4: altitude 400 km is classified LEO. -/
theorem orbitTypeOf_cases_witness : orbitTypeOf 400 = "LEO" :=
  (orbitTypeOf_cases 400).1 (by norm_num)

/-- Counterexample for C4 as stated: altitude 34000 km lies in
`[33786, 35786)`, which the claim says is GEO, but the code returns MEO. -/
theorem orbitTypeOf_geo_band_cex :
    orbitTypeOf 34000 = "MEO" ∧ (33786 : ℝ) ≤ 34000 ∧ (34000 : ℝ) < 35786 ∧
    ("MEO" : String) ≠ "GEO" := by
  refine ⟨?_, by norm_num, by norm_num, by decide⟩
  unfold orbitTypeOf
  rw [if_neg (by norm_num), if_pos (by norm_num)]

theorem sameKey_self (r : HistoryRow) : sameKey r r = true := by
  simp [sameKey]

/-- Claim C5: inserting a history row whose `(norad_id, epoch, user_id)`
key is already stored is a no-op that leaves the store unchanged;
inserting the same row twice equals inserting it once; and inserting
into a store without the key yields exactly one row with that key.  The
operation is total — a duplicate never produces an error. -/
theorem insertHistory_idempotent (store : List HistoryRow) (r : HistoryRow) :
    (store.any (fun q => sameKey q r) = true → insertHistory store r = store) ∧
    insertHistory (insertHistory store r) r = insertHistory store r ∧
    (store.countP (fun q => sameKey q r) = 0 →
      (insertHistory store r).countP (fun q => sameKey q r) = 1) := by
  refine ⟨fun h => by simp [insertHistory, h], ?_, fun h0 => ?_⟩
  · by_cases h : store.any (fun q => sameKey q r) = true
    · simp [insertHistory, h]
    · have h2 : (store ++ [r]).any (fun q => sameKey q r) = true := by
        simp [sameKey_self]
      simp [insertHistory, h, h2]
  · have h : store.any (fun q => sameKey q r) = false := by
      rw [List.any_eq_false]
      exact List.countP_eq_zero.1 h0
    rw [insertHistory, if_neg (by simp [h]), List.countP_append, h0,
      List.countP_singleton, if_pos (sameKey_self r)]

/-- Witness for C5: inserting a fresh row into the empty store yields
exactly one row with its key. -/
theorem insertHistory_idempotent_witness :
    (insertHistory [] ⟨25544, "ISS (ZARYA)", issL1, issL2, 1704112200000, "user1"⟩).countP
      (fun q => sameKey q ⟨25544, "ISS (ZARYA)", issL1, issL2, 1704112200000, "user1"⟩) = 1 :=
  (insertHistory_idempotent [] ⟨25544, "ISS (ZARYA)", issL1, issL2, 1704112200000, "user1"⟩).2.2 rfl

/-- Counterexample for C8 as stated: with the cooldown still active
(`rateLimitUntil = 100000 > now = 50000`) but no cookie, the fetch first
runs `ensureSession`, which issues a login request; the successful login
resets `rateLimitUntil` to 0, so the data request is issued as well and
the fetch succeeds — during the cooldown window. -/
theorem rate_limit_cooldown_cex :
    (100000 : ℤ) > 50000 ∧
    fetchFullSatelliteData ⟨false, 0, 100000⟩ 50000 true FetchNet.ok =
      (⟨true, 50000, 0⟩, [UpstreamReq.login, UpstreamReq.data], true) := by
  exact ⟨by decide, by decide⟩

/-- Claim C8 (amended): a 429 on an authenticated request records a
cooldown of exactly 60 s; while the cooldown is active a fetch with a
valid fresh session short-circuits as failed with no upstream request;
a fetch after expiry (valid fresh session) issues exactly the data
request and succeeds on a successful response.  However `ensureSession`
runs before the cooldown check, so with a missing cookie a login request
is attempted during the cooldown, and a successful login resets the
cooldown and lets the data request through. -/
theorem rate_limit_cooldown (st : SessState) (now : ℤ) (loginOk : Bool) (net : FetchNet) :
    (st.cookies = true → now - st.lastLogin ≤ 20 * 60 * 1000 →
      (st.rateLimitUntil ≤ now →
        fetchFullSatelliteData st now loginOk FetchNet.err429 =
          ({ st with rateLimitUntil := now + 60 * 1000 }, [UpstreamReq.data], false)) ∧
      (st.rateLimitUntil > now →
        fetchFullSatelliteData st now loginOk net = (st, [], false)) ∧
      (st.rateLimitUntil ≤ now →
        (fetchFullSatelliteData st now loginOk net).2.1 = [UpstreamReq.data] ∧
        (net = FetchNet.ok → (fetchFullSatelliteData st now loginOk net).2.2 = true))) ∧
    (st.cookies = false → 0 ≤ now → st.rateLimitUntil > now →
      (fetchFullSatelliteData st now true net).2.1 = [UpstreamReq.login, UpstreamReq.data]) := by
  constructor
  · intro hc hfresh
    have he : ensureSession st now loginOk = (st, [], true) := by
      rw [ensureSession, if_neg (by simp [hc]; omega)]
    refine ⟨fun hcool => ?_, fun hcool => ?_, fun hcool => ?_⟩
    · simp only [fetchFullSatelliteData, he]
      rw [if_neg (not_lt.mpr hcool)]
      rfl
    · simp only [fetchFullSatelliteData, he]
      rw [if_pos hcool]
    · simp only [fetchFullSatelliteData, he]
      rw [if_neg (not_lt.mpr hcool)]
      cases net <;> simp
  · intro hc hn hcool
    have he2 : ensureSession st now true = (⟨true, now, 0⟩, [UpstreamReq.login], true) := by
      rw [ensureSession, if_pos (by simp [hc])]
      rfl
    simp only [fetchFullSatelliteData, he2]
    rw [if_neg (by simp; omega)]
    cases net <;> rfl

/-- Witness for C8: a 429 at `now = 1000` on a fresh valid session
records `rateLimitUntil = 61000`, with only the data request issued. -/
theorem rate_limit_cooldown_witness :
    fetchFullSatelliteData ⟨true, 0, 0⟩ 1000 true FetchNet.err429 =
      (⟨true, 0, 61000⟩, [UpstreamReq.data], false) := by
  have h := ((rate_limit_cooldown ⟨true, 0, 0⟩ 1000 true FetchNet.err429).1 rfl
    (by norm_num)).1 (by norm_num)
  simpa using h

/-- Claim C6 (trace): when every pass attempt throws a transport error,
the batched job performs four pass attempts and four login attempts
(retryCount 0, 1, 2, 3) before giving up — not three. -/
theorem retry_four_attempts :
    fetchAndStoreTLEs (fun _ => PassOutcome.transportError) 0 false =
      { loginAttempts := 4, passAttempts := 4, succeeded := false } := by
  have h3 : fetchAndStoreTLEs (fun _ => PassOutcome.transportError) 3 false =
      { loginAttempts := 1, passAttempts := 1, succeeded := false } := by
    unfold fetchAndStoreTLEs
    simp
  have h2 : fetchAndStoreTLEs (fun _ => PassOutcome.transportError) 2 false =
      { loginAttempts := 2, passAttempts := 2, succeeded := false } := by
    unfold fetchAndStoreTLEs
    simp [h3]
  have h1 : fetchAndStoreTLEs (fun _ => PassOutcome.transportError) 1 false =
      { loginAttempts := 3, passAttempts := 3, succeeded := false } := by
    unfold fetchAndStoreTLEs
    simp [h2]
  unfold fetchAndStoreTLEs
  simp [h1]

theorem parse_mm_iss : parseFloatChars (jsSlice (optChars (some issL2)) 52 63) = some (31 / 2) := by
  rw [show jsSlice (optChars (some issL2)) 52 63 = "15.50000000".toList from rfl]
  simp +decide [parseFloatChars, takeDigits, parseExpPart, parseSignedDigits, isJsWs, isDigitCh,
    show digitsVal ['1', '5'] = 15 from by decide,
    show digitsVal ['5', '0', '0', '0', '0', '0', '0', '0'] = 50000000 from by decide]
  norm_num

theorem parse_mm_badIncl :
    parseFloatChars (jsSlice (optChars (some badInclL2)) 52 63) = some (31 / 2) := by
  rw [show jsSlice (optChars (some badInclL2)) 52 63 = jsSlice (optChars (some issL2)) 52 63
    from rfl]
  exact parse_mm_iss

theorem parse_incl_badIncl :
    parseFloatChars (jsSlice (optChars (some badInclL2)) 8 16) = none := by
  rw [show jsSlice (optChars (some badInclL2)) 8 16 = "ABCDEFGH".toList from rfl]
  simp +decide [parseFloatChars, takeDigits]

theorem parse_mm_zero :
    parseFloatChars (jsSlice (optChars (some zeroMmL2)) 52 63) = some 0 := by
  rw [show jsSlice (optChars (some zeroMmL2)) 52 63 = "00.00000000".toList from rfl]
  simp +decide [parseFloatChars, takeDigits, parseExpPart, parseSignedDigits,
    show digitsVal ['0', '0'] = 0 from by decide,
    show digitsVal ['0', '0', '0', '0', '0', '0', '0', '0'] = 0 from by decide]

theorem parse_mm_neg :
    parseFloatChars (jsSlice (optChars (some negMmL2)) 52 63) = some (-31 / 2) := by
  rw [show jsSlice (optChars (some negMmL2)) 52 63 = "-15.5000000".toList from rfl]
  simp +decide [parseFloatChars, takeDigits, parseExpPart, parseSignedDigits,
    show digitsVal ['1', '5'] = 15 from by decide,
    show digitsVal ['5', '0', '0', '0', '0', '0', '0'] = 5000000 from by decide]
  norm_num

/-- `'0.' + s` always parses: the integer part `['0']` is nonempty. -/
theorem parseFloatChars_zeroDot (cs : List Char) :
    (parseFloatChars ('0' :: '.' :: cs)).isSome = true := by
  simp +decide [parseFloatChars, takeDigits, List.takeWhile_cons, List.dropWhile_cons]

/-- Claim C1: `populateDerived` returns `null` whenever either line is
missing (falsy) or the mean motion parsed from columns 53-63 of line 2
is `NaN` or non-positive. -/
theorem populateDerived_rejects (line1 line2 : Option String)
    (h : strFalsy line1 = true ∨ strFalsy line2 = true ∨
      parseFloatChars (jsSlice (optChars line2) 52 63) = none ∨
      ∃ m, parseFloatChars (jsSlice (optChars line2) 52 63) = some m ∧ m ≤ 0) :
    populateDerived line1 line2 = none := by
  unfold populateDerived
  by_cases hf : (strFalsy line1 || strFalsy line2) = true
  · rw [if_pos hf]
  · rw [if_neg hf]
    simp only [Bool.or_eq_true, not_or, Bool.not_eq_true] at hf
    rcases h with h | h | h | ⟨m, hm, hle⟩
    · rw [hf.1] at h; cases h
    · rw [hf.2] at h; cases h
    · rw [h]
    · simp only [hm, if_pos hle]

/-- Witness for C1: zero mean motion in columns 53-63 is rejected. -/
theorem populateDerived_rejects_witness :
    populateDerived (some issL1) (some zeroMmL2) = none :=
  populateDerived_rejects _ _ (Or.inr (Or.inr (Or.inr ⟨0, parse_mm_zero, le_refl 0⟩)))

/-- The semi-major axis expression of the derivation body, as a function
of the parsed mean motion. -/
noncomputable def semiMajorAxisOf (m : ℚ) : ℝ :=
  jsCbrt (GM_KM3_S2 * ((86400 / (m : ℝ)) / (2 * Real.pi)) ^ 2)

/-- Structure of every record returned by `populateDerived`: the parsed
mean motion is positive and each field is exactly the corresponding
rounded expression of the body. -/
theorem populateDerived_some_shape (line1 line2 : Option String) (r : Derived)
    (h : populateDerived line1 line2 = some r) :
    ∃ m : ℚ, parseFloatChars (jsSlice (optChars line2) 52 63) = some m ∧ 0 < m ∧
      r.inclination = (parseFloatChars (jsSlice (optChars line2) 8 16)).map
        (fun q : ℚ => roundTo 4 (q : ℝ)) ∧
      r.eccentricity = (parseFloatChars ('0' :: '.' :: jsSlice (optChars line2) 26 33)).map
        (fun q : ℚ => roundTo 8 (q : ℝ)) ∧
      r.mean_motion = some (roundTo 8 (m : ℝ)) ∧
      r.semi_major_axis_km = some (roundTo 4 (semiMajorAxisOf m)) ∧
      r.perigee_km = (parseFloatChars ('0' :: '.' :: jsSlice (optChars line2) 26 33)).map
        (fun q : ℚ => roundTo 2 (semiMajorAxisOf m * (1 - (q : ℝ)) - EARTH_RADIUS_KM)) ∧
      r.apogee_km = (parseFloatChars ('0' :: '.' :: jsSlice (optChars line2) 26 33)).map
        (fun q : ℚ => roundTo 2 (semiMajorAxisOf m * (1 + (q : ℝ)) - EARTH_RADIUS_KM)) ∧
      r.orbital_period_minutes = some (roundTo 4 (86400 / (m : ℝ) / 60)) ∧
      r.altitude_km = some (roundTo 2 (semiMajorAxisOf m - EARTH_RADIUS_KM)) ∧
      r.velocity_kms = some (roundTo 4 (2 * Real.pi * semiMajorAxisOf m / (86400 / (m : ℝ)))) ∧
      r.raan = (parseFloatChars (jsSlice (optChars line2) 17 25)).map
        (fun q : ℚ => roundTo 4 (q : ℝ)) ∧
      r.arg_perigee = (parseFloatChars (jsSlice (optChars line2) 34 42)).map
        (fun q : ℚ => roundTo 4 (q : ℝ)) ∧
      r.mean_anomaly = (parseFloatChars (jsSlice (optChars line2) 43 51)).map
        (fun q : ℚ => roundTo 4 (q : ℝ)) ∧
      r.bstar = (if (jsTrim (jsSlice (optChars line1) 53 63)).isEmpty then some 0
        else (parseFloatChars (jsReplaceFirst (jsReplaceFirst
          (jsTrim (jsSlice (optChars line1) 53 63)) '+' ['e', '+']) '-' ['e', '-'])).map
          fun q : ℚ => (q : ℝ)) ∧
      r.mean_motion_dot = (if (jsTrim (jsSlice (optChars line1) 33 43)).isEmpty then some 0
        else (parseFloatChars (jsTrim (jsSlice (optChars line1) 33 43))).map fun q : ℚ => (q : ℝ)) ∧
      r.mean_motion_ddot = (if (jsTrim (jsSlice (optChars line1) 44 52)).isEmpty then some 0
        else (parseFloatChars (jsTrim (jsSlice (optChars line1) 44 52))).map fun q : ℚ => (q : ℝ)) := by
  unfold populateDerived at h
  by_cases hf : (strFalsy line1 || strFalsy line2) = true
  · rw [if_pos hf] at h; cases h
  · rw [if_neg hf] at h
    rcases hp : parseFloatChars (jsSlice (optChars line2) 52 63) with _ | m
    · rw [hp] at h; cases h
    · simp only [hp] at h
      by_cases hle : m ≤ 0
      · rw [if_pos hle] at h; cases h
      · rw [if_neg hle] at h
        have hr := Option.some.inj h
        subst hr
        refine ⟨m, rfl, by push_neg at hle; exact hle, ?_, ?_, ?_, ?_, ?_, ?_, ?_, ?_, ?_,
          ?_, ?_, ?_, ?_, ?_, ?_⟩ <;> rfl

theorem populateDerived_iss_isSome :
    (populateDerived (some issL1) (some issL2)).isSome = true := by
  unfold populateDerived
  rw [if_neg (by decide)]
  simp only [parse_mm_iss]
  rw [if_neg (by norm_num)]
  rfl

/-- Claim C2 (amended): whenever `populateDerived` returns a record, the
fields computed from the mean motion and the eccentricity (eccentricity,
mean motion, semi-major axis, perigee, apogee, period, altitude,
velocity) are finite; the independently parsed fields (inclination,
RAAN, argument of perigee, mean anomaly, bstar, mean-motion derivatives)
are finite whenever their own columns parse as numbers — but they are
`NaN` when their columns do not parse, so a returned record can contain
`NaN` fields. -/
theorem populateDerived_fields (line1 line2 : Option String)
    (h : (populateDerived line1 line2).isSome = true) :
    ((populateDerived line1 line2).bind Derived.eccentricity).isSome = true ∧
    ((populateDerived line1 line2).bind Derived.mean_motion).isSome = true ∧
    ((populateDerived line1 line2).bind Derived.semi_major_axis_km).isSome = true ∧
    ((populateDerived line1 line2).bind Derived.perigee_km).isSome = true ∧
    ((populateDerived line1 line2).bind Derived.apogee_km).isSome = true ∧
    ((populateDerived line1 line2).bind Derived.orbital_period_minutes).isSome = true ∧
    ((populateDerived line1 line2).bind Derived.altitude_km).isSome = true ∧
    ((populateDerived line1 line2).bind Derived.velocity_kms).isSome = true ∧
    ((parseFloatChars (jsSlice (optChars line2) 8 16)).isSome = true →
      ((populateDerived line1 line2).bind Derived.inclination).isSome = true) ∧
    ((parseFloatChars (jsSlice (optChars line2) 17 25)).isSome = true →
      ((populateDerived line1 line2).bind Derived.raan).isSome = true) ∧
    ((parseFloatChars (jsSlice (optChars line2) 34 42)).isSome = true →
      ((populateDerived line1 line2).bind Derived.arg_perigee).isSome = true) ∧
    ((parseFloatChars (jsSlice (optChars line2) 43 51)).isSome = true →
      ((populateDerived line1 line2).bind Derived.mean_anomaly).isSome = true) ∧
    (((jsTrim (jsSlice (optChars line1) 53 63)).isEmpty = true ∨
        (parseFloatChars (jsReplaceFirst (jsReplaceFirst
          (jsTrim (jsSlice (optChars line1) 53 63)) '+' ['e', '+'])
          '-' ['e', '-'])).isSome = true) →
      ((populateDerived line1 line2).bind Derived.bstar).isSome = true) ∧
    (((jsTrim (jsSlice (optChars line1) 33 43)).isEmpty = true ∨
        (parseFloatChars (jsTrim (jsSlice (optChars line1) 33 43))).isSome = true) →
      ((populateDerived line1 line2).bind Derived.mean_motion_dot).isSome = true) ∧
    (((jsTrim (jsSlice (optChars line1) 44 52)).isEmpty = true ∨
        (parseFloatChars (jsTrim (jsSlice (optChars line1) 44 52))).isSome = true) →
      ((populateDerived line1 line2).bind Derived.mean_motion_ddot).isSome = true) := by
  rcases hr : populateDerived line1 line2 with _ | r
  · rw [hr] at h; cases h
  · obtain ⟨m, hp, hm0, hincl, hecc, hmm, hsma, hper, hapo, hopm, halt, hvel, hraan, hargp,
      hma, hbst, hdot, hddot⟩ := populateDerived_some_shape line1 line2 r hr
    simp only [Option.some_bind]
    refine ⟨?_, ?_, ?_, ?_, ?_, ?_, ?_, ?_, fun hq => ?_, fun hq => ?_, fun hq => ?_,
      fun hq => ?_, fun hb => ?_, fun hb => ?_, fun hb => ?_⟩
    · rw [hecc, Option.isSome_map']; exact parseFloatChars_zeroDot _
    · rw [hmm]; rfl
    · rw [hsma]; rfl
    · rw [hper, Option.isSome_map']; exact parseFloatChars_zeroDot _
    · rw [hapo, Option.isSome_map']; exact parseFloatChars_zeroDot _
    · rw [hopm]; rfl
    · rw [halt]; rfl
    · rw [hvel]; rfl
    · rw [hincl, Option.isSome_map']; exact hq
    · rw [hraan, Option.isSome_map']; exact hq
    · rw [hargp, Option.isSome_map']; exact hq
    · rw [hma, Option.isSome_map']; exact hq
    · rw [hbst]
      rcases hb with hb | hb
      · rw [if_pos hb]; rfl
      · by_cases he : (jsTrim (jsSlice (optChars line1) 53 63)).isEmpty = true
        · rw [if_pos he]; rfl
        · rw [if_neg he, Option.isSome_map']; exact hb
    · rw [hdot]
      rcases hb with hb | hb
      · rw [if_pos hb]; rfl
      · by_cases he : (jsTrim (jsSlice (optChars line1) 33 43)).isEmpty = true
        · rw [if_pos he]; rfl
        · rw [if_neg he, Option.isSome_map']; exact hb
    · rw [hddot]
      rcases hb with hb | hb
      · rw [if_pos hb]; rfl
      · by_cases he : (jsTrim (jsSlice (optChars line1) 44 52)).isEmpty = true
        · rw [if_pos he]; rfl
        · rw [if_neg he, Option.isSome_map']; exact hb

/-- Witness for C2: on a fully well-formed element set the eccentricity
field of the returned record is finite. -/
theorem populateDerived_fields_witness :
    ((populateDerived (some issL1) (some issL2)).bind Derived.eccentricity).isSome = true :=
  (populateDerived_fields (some issL1) (some issL2) populateDerived_iss_isSome).1

/-- Counterexample for C2 as stated: with garbage in the inclination
columns but a valid mean motion, `populateDerived` returns a record
whose `inclination` field is `NaN` — a non-absent result containing a
non-finite field. -/
theorem populateDerived_nan_field_cex :
    (populateDerived (some issL1) (some badInclL2)).isSome = true ∧
    (populateDerived (some issL1) (some badInclL2)).bind Derived.inclination = none := by
  have hs : (populateDerived (some issL1) (some badInclL2)).isSome = true := by
    unfold populateDerived
    rw [if_neg (by decide)]
    simp only [parse_mm_badIncl]
    rw [if_neg (by norm_num)]
    rfl
  refine ⟨hs, ?_⟩
  rcases hr : populateDerived (some issL1) (some badInclL2) with _ | r
  · rw [hr] at hs; cases hs
  · obtain ⟨m, hp, hm0, hincl, _⟩ := populateDerived_some_shape _ _ r hr
    simp only [Option.some_bind]
    rw [hincl, parse_incl_badIncl]
    rfl

theorem optPrec_map_roundTo {α : Type} (d : ℕ) (f : α → ℝ) (o : Option α) :
    optPrec d (o.map fun q => roundTo d (f q)) := by
  intro x hx
  rw [Option.mem_def, Option.map_eq_some'] at hx
  obtain ⟨q, _, rfl⟩ := hx
  exact hasDecimals_roundTo d (f q)

theorem optPrec_some_roundTo (d : ℕ) (x : ℝ) : optPrec d (some (roundTo d x)) := by
  intro y hy
  rw [Option.mem_def, Option.some.injEq] at hy
  rw [← hy]
  exact hasDecimals_roundTo d x

/-- Claim C3 (amended): every rounded output field of `populateDerived`
carries its code-level precision — 4 decimals for the angles, 8 for
eccentricity and mean motion, 4 (not 2) for the semi-major axis, 2 for
perigee/apogee/altitude, and 4 for velocity and period. -/
theorem populateDerived_rounding (line1 line2 : Option String) :
    optPrec 4 ((populateDerived line1 line2).bind Derived.inclination) ∧
    optPrec 4 ((populateDerived line1 line2).bind Derived.raan) ∧
    optPrec 4 ((populateDerived line1 line2).bind Derived.arg_perigee) ∧
    optPrec 4 ((populateDerived line1 line2).bind Derived.mean_anomaly) ∧
    optPrec 8 ((populateDerived line1 line2).bind Derived.eccentricity) ∧
    optPrec 8 ((populateDerived line1 line2).bind Derived.mean_motion) ∧
    optPrec 4 ((populateDerived line1 line2).bind Derived.semi_major_axis_km) ∧
    optPrec 2 ((populateDerived line1 line2).bind Derived.perigee_km) ∧
    optPrec 2 ((populateDerived line1 line2).bind Derived.apogee_km) ∧
    optPrec 2 ((populateDerived line1 line2).bind Derived.altitude_km) ∧
    optPrec 4 ((populateDerived line1 line2).bind Derived.velocity_kms) ∧
    optPrec 4 ((populateDerived line1 line2).bind Derived.orbital_period_minutes) := by
  rcases hr : populateDerived line1 line2 with _ | r
  · refine ⟨?_, ?_, ?_, ?_, ?_, ?_, ?_, ?_, ?_, ?_, ?_, ?_⟩ <;>
      · intro x hx
        rw [Option.mem_def, Option.none_bind] at hx
        cases hx
  · obtain ⟨m, hp, hm0, hincl, hecc, hmm, hsma, hper, hapo, hopm, halt, hvel, hraan,
      hargp, hma, _, _, _⟩ := populateDerived_some_shape line1 line2 r hr
    simp only [Option.some_bind]
    refine ⟨?_, ?_, ?_, ?_, ?_, ?_, ?_, ?_, ?_, ?_, ?_, ?_⟩
    · rw [hincl]; exact optPrec_map_roundTo 4 _ _
    · rw [hraan]; exact optPrec_map_roundTo 4 _ _
    · rw [hargp]; exact optPrec_map_roundTo 4 _ _
    · rw [hma]; exact optPrec_map_roundTo 4 _ _
    · rw [hecc]; exact optPrec_map_roundTo 8 _ _
    · rw [hmm]; exact optPrec_some_roundTo 8 _
    · rw [hsma]; exact optPrec_some_roundTo 4 _
    · rw [hper]; exact optPrec_map_roundTo 2 _ _
    · rw [hapo]; exact optPrec_map_roundTo 2 _ _
    · rw [halt]; exact optPrec_some_roundTo 2 _
    · rw [hvel]; exact optPrec_some_roundTo 4 _
    · rw [hopm]; exact optPrec_some_roundTo 4 _

theorem semiMajorAxisOf_iss_bounds :
    (6794.8625 : ℝ) ≤ semiMajorAxisOf (31/2) ∧ semiMajorAxisOf (31/2) ≤ 6794.8641 := by
  have hπ1 : (3.141592 : ℝ) < Real.pi := Real.pi_gt_d6
  have hπ2 : Real.pi < 3.141593 := Real.pi_lt_d6
  have hπ0 : (0 : ℝ) < Real.pi := Real.pi_pos
  have hcast : ((31/2 : ℚ) : ℝ) = (31 : ℝ) / 2 := by push_cast; ring
  have hx : GM_KM3_S2 * ((86400 / ((31 : ℝ)/2)) / (2 * Real.pi)) ^ 2 =
      398600.4418 * (86400 / ((31 : ℝ)/2)) ^ 2 / (4 * Real.pi ^ 2) := by
    rw [GM_KM3_S2]
    field_simp
    ring
  have hlo : (6794.8625 : ℝ)^3 ≤ 398600.4418 * (86400 / ((31 : ℝ)/2)) ^ 2 / (4 * Real.pi ^ 2) := by
    rw [le_div_iff₀ (by positivity)]
    have h1 : (6794.8625 : ℝ)^3 * (4 * Real.pi ^ 2) ≤
        (6794.8625 : ℝ)^3 * (4 * (3.141593 : ℝ)^2) := by
      have hsq : Real.pi ^ 2 ≤ (3.141593 : ℝ)^2 := by nlinarith
      nlinarith
    refine h1.trans ?_
    norm_num
  have hhi : 398600.4418 * (86400 / ((31 : ℝ)/2)) ^ 2 / (4 * Real.pi ^ 2) ≤ (6794.8641 : ℝ)^3 := by
    rw [div_le_iff₀ (by positivity)]
    have h1 : (6794.8641 : ℝ)^3 * (4 * (3.141592 : ℝ)^2) ≤
        (6794.8641 : ℝ)^3 * (4 * Real.pi ^ 2) := by
      have hsq : (3.141592 : ℝ)^2 ≤ Real.pi ^ 2 := by nlinarith
      nlinarith
    refine le_trans ?_ h1
    norm_num
  have hxlo : (6794.8625 : ℝ)^3 ≤ GM_KM3_S2 * ((86400 / ((31/2 : ℚ) : ℝ)) / (2 * Real.pi)) ^ 2 := by
    rw [hcast, hx]; exact hlo
  have hxhi : GM_KM3_S2 * ((86400 / ((31/2 : ℚ) : ℝ)) / (2 * Real.pi)) ^ 2 ≤ (6794.8641 : ℝ)^3 := by
    rw [hcast, hx]; exact hhi
  have hxpos : (0 : ℝ) ≤ GM_KM3_S2 * ((86400 / ((31/2 : ℚ) : ℝ)) / (2 * Real.pi)) ^ 2 :=
    le_trans (by positivity) hxlo
  have hcb : semiMajorAxisOf (31/2) =
      (GM_KM3_S2 * ((86400 / ((31/2 : ℚ) : ℝ)) / (2 * Real.pi)) ^ 2) ^ ((1 : ℝ)/3) := by
    rw [semiMajorAxisOf, jsCbrt, if_neg (not_lt.mpr hxpos)]
  constructor
  · rw [hcb]
    have e1 : ((6794.8625 : ℝ)^(3 : ℕ)) ^ ((1 : ℝ)/3) = 6794.8625 := by
      rw [← Real.rpow_natCast (6794.8625 : ℝ) 3,
        ← Real.rpow_mul (by norm_num : (0:ℝ) ≤ 6794.8625)]
      norm_num
    calc (6794.8625 : ℝ) = ((6794.8625 : ℝ)^(3 : ℕ)) ^ ((1 : ℝ)/3) := e1.symm
      _ ≤ _ := Real.rpow_le_rpow (by positivity) hxlo (by norm_num)
  · rw [hcb]
    have e2 : ((6794.8641 : ℝ)^(3 : ℕ)) ^ ((1 : ℝ)/3) = 6794.8641 := by
      rw [← Real.rpow_natCast (6794.8641 : ℝ) 3,
        ← Real.rpow_mul (by norm_num : (0:ℝ) ≤ 6794.8641)]
      norm_num
    calc (GM_KM3_S2 * ((86400 / ((31/2 : ℚ) : ℝ)) / (2 * Real.pi)) ^ 2) ^ ((1 : ℝ)/3)
        ≤ ((6794.8641 : ℝ)^(3 : ℕ)) ^ ((1 : ℝ)/3) :=
          Real.rpow_le_rpow hxpos hxhi (by norm_num)
      _ = 6794.8641 := e2

/-- Counterexample for C3 as stated: on the mean-motion-15.5 element
set, the semi-major axis (about 6794.8633 km) is stored with 4 decimal
places, so it is not representable with the documented 2 decimals for
distances. -/
theorem semi_major_axis_two_decimals_cex :
    ¬ optPrec 2 ((populateDerived (some issL1) (some issL2)).bind Derived.semi_major_axis_km) := by
  have hs := populateDerived_iss_isSome
  rcases hr : populateDerived (some issL1) (some issL2) with _ | r
  · rw [hr] at hs; cases hs
  · obtain ⟨m, hp, hm0, _, _, _, hsma, _⟩ := populateDerived_some_shape _ _ r hr
    have hm : m = 31/2 := by
      have h2 := parse_mm_iss
      rw [hp] at h2
      exact Option.some.inj h2
    subst hm
    simp only [Option.some_bind]
    rw [hsma]
    intro hopt
    obtain ⟨k, hk⟩ := hopt (roundTo 4 (semiMajorAxisOf (31/2))) rfl
    obtain ⟨hb1, hb2⟩ := semiMajorAxisOf_iss_bounds
    set S : ℝ := semiMajorAxisOf (31/2) with hS
    rw [roundTo] at hk
    have hmlo : (67948625 : ℤ) ≤ ⌊S * 10^4 + 1/2⌋ := by
      rw [Int.le_floor]; push_cast; nlinarith
    have hmhi : ⌊S * 10^4 + 1/2⌋ < (67948642 : ℤ) := by
      rw [Int.floor_lt]; push_cast; nlinarith
    rw [div_eq_div_iff (by norm_num) (by norm_num)] at hk
    have hk3 : ⌊S * 10^4 + 1/2⌋ * 10^2 = k * 10^4 := by exact_mod_cast hk
    omega

/-- Claim C10 (amended): the shared `populateDerived` and the backfill
script's `calculateDerived` agree on every input whose parsed mean
motion is not negative (both reject `NaN` and `0`, and compute the same
record for positive mean motion); they differ exactly on negative mean
motion, which only `populateDerived` rejects. -/
theorem populateDerived_eq_calculateDerived (line1 line2 : Option String)
    (h : ∀ m : ℚ, parseFloatChars (jsSlice (optChars line2) 52 63) = some m → 0 ≤ m) :
    populateDerived line1 line2 = calculateDerived line1 line2 := by
  unfold populateDerived calculateDerived
  by_cases hf : (strFalsy line1 || strFalsy line2) = true
  · rw [if_pos hf, if_pos hf]
  · rw [if_neg hf, if_neg hf]
    rcases Option.eq_none_or_eq_some (parseFloatChars (jsSlice (optChars line2) 52 63)) with
      hp | ⟨m, hp⟩
    · simp only [hp]
    · have h0 : 0 ≤ m := h m hp
      by_cases hz : m = 0
      · subst hz
        simp [hp]
      · have hgt : ¬ (m ≤ 0) := fun hle => hz (le_antisymm hle h0)
        simp only [hp, if_neg hgt, if_neg hz]

/-- Witness for C10: both derivation copies return the same record on
the mean-motion-15.5 element set. -/
theorem populateDerived_eq_calculateDerived_witness :
    populateDerived (some issL1) (some issL2) = calculateDerived (some issL1) (some issL2) :=
  populateDerived_eq_calculateDerived _ _ (fun m hm => by
    have h2 := parse_mm_iss
    rw [hm] at h2
    rw [Option.some.inj h2]
    norm_num)

/-- Counterexample for C10 as stated: with mean motion `-15.5`,
`populateDerived` returns absent but `calculateDerived` returns a
record, so the two copies are not extensionally equal. -/
theorem derive_copies_diverge_cex :
    populateDerived (some issL1) (some negMmL2) ≠ calculateDerived (some issL1) (some negMmL2) := by
  have h1 : populateDerived (some issL1) (some negMmL2) = none := by
    unfold populateDerived
    rw [if_neg (by decide)]
    simp only [parse_mm_neg]
    rw [if_pos (by norm_num : (-31 / 2 : ℚ) ≤ 0)]
  have h2 : (calculateDerived (some issL1) (some negMmL2)).isSome = true := by
    unfold calculateDerived
    rw [if_neg (by decide)]
    simp only [parse_mm_neg]
    rw [if_neg (by norm_num : ¬ ((-31 / 2 : ℚ) = 0))]
    rfl
  intro heq
  rw [h1] at heq
  rw [← heq] at h2
  simp at h2

/-- A batched-loop block whose `tle_history` insert throws. -/
def cexBlockFail : BlockB :=
  ⟨true, true, 25544, "user1", "ISS (ZARYA)", issL1, issL2, 1704112200000, true, false⟩

/-- A fully healthy batched-loop block. -/
def cexBlockOk : BlockB :=
  ⟨true, true, 25545, "user1", "SAT-B", issL1, issL2, 1704112200000, false, false⟩

/-- A per-object task whose upstream fetch throws a transport error. -/
def cexNetTask : ObjTask :=
  ⟨25544, "user1", FetchOutcome.netError, 0, false, false⟩

/-- Counterexample for C7 as stated: in the batched loop, a persistence
error on the first block aborts the pass (the exception reaches the
outer catch), so the second, fully valid block is never processed and
nothing at all is stored. -/
theorem batched_pass_abort_cex :
    (syncPassB ([], []) [cexBlockFail, cexBlockOk]).2 = true ∧
    (syncPassB ([], []) [cexBlockFail, cexBlockOk]).1.1 = [] := by
  have hcd : (calculateDerived (some issL1) (some issL2)).isSome = true := by
    unfold calculateDerived
    rw [if_neg (by decide)]
    simp only [parse_mm_iss]
    rw [if_neg (by norm_num : ¬ ((31 / 2 : ℚ) = 0))]
    rfl
  rcases hcd2 : calculateDerived (some issL1) (some issL2) with _ | d
  · rw [hcd2] at hcd; cases hcd
  · have hstep : stepB ([], []) cexBlockFail = (([], []), true) := by
      simp only [stepB, cexBlockFail]
      rw [if_neg (by decide), if_neg (by decide)]
      simp only [hcd2]
      rfl
    unfold syncPassB
    rw [hstep]
    exact ⟨rfl, rfl⟩

/-- Claim C7 (amended): in the per-object loop every failure on one
object (transport error, empty body, bad format, failed derivation, or
thrown history insert) leaves the stores untouched and the loop
continues with the remaining objects; in the batched loop a pass with no
persistence errors is never aborted (per-block shape and derivation
failures merely skip the block). -/
theorem per_object_failure_isolation (st : List HistoryRow × List DerivedRow) (o : ObjTask)
    (objs : List ObjTask) :
    (syncPassA st (o :: objs) = syncPassA (processOneA st o) objs) ∧
    (o.fetch = FetchOutcome.netError → processOneA st o = st) ∧
    (o.fetch = FetchOutcome.noData → processOneA st o = st) ∧
    (o.fetch = FetchOutcome.badFormat → processOneA st o = st) ∧
    (∀ name l1 l2, o.fetch = FetchOutcome.got name l1 l2 →
      populateDerived (some l1) (some l2) = none → processOneA st o = st) ∧
    (∀ name l1 l2, o.fetch = FetchOutcome.got name l1 l2 → o.histInsertFails = true →
      processOneA st o = st) ∧
    (∀ blocks : List BlockB,
      (∀ b ∈ blocks, b.histInsertFails = false ∧ b.derInsertFails = false) →
      (syncPassB st blocks).2 = false) := by
  refine ⟨rfl, fun h => ?_, fun h => ?_, fun h => ?_, fun name l1 l2 hf hd => ?_,
    fun name l1 l2 hf hb => ?_, ?_⟩
  · simp only [processOneA, h]
  · simp only [processOneA, h]
  · simp only [processOneA, h]
  · simp only [processOneA, hf, hd]
  · simp only [processOneA, hf]
    rcases hpd : populateDerived (some l1) (some l2) with _ | d
    · rfl
    · simp [hb]
  · intro blocks
    induction blocks generalizing st with
    | nil => intro _; rfl
    | cons b rest ih =>
      intro hall
      obtain ⟨hb1, hb2⟩ := hall b (List.mem_cons_self b rest)
      have hstep : (stepB st b).2 = false := by
        unfold stepB
        by_cases hv : b.valid = false
        · rw [if_pos hv]
        · rw [if_neg hv]
          by_cases hk2 : b.known = false
          · rw [if_pos hk2]
          · rw [if_neg hk2]
            rcases hcd : calculateDerived (some b.line1) (some b.line2) with _ | d
            · rfl
            · simp [hb1, hb2]
      unfold syncPassB
      rcases hsb : stepB st b with ⟨st1, flag⟩
      rw [hsb] at hstep
      subst hstep
      exact ih st1 (fun b' hb' => hall b' (List.mem_cons_of_mem _ hb'))

/-- Witness for C7: a transport error on one object leaves the stores
untouched. -/
theorem per_object_failure_isolation_witness :
    processOneA ([], []) cexNetTask = ([], []) :=
  (per_object_failure_isolation ([], []) cexNetTask []).2.1 rfl
